import Mathlib

/-!
Verification of the lmdb++ wrapper (`src/lmdb++.h`), a C++11 safety layer over
the LMDB storage engine. The wrapper's own logic — error classification, the
status-code guards around every engine call, and the handle lifecycle of the
resource classes (`env`, `txn`, `dbi`, `cursor`, `val`) — is embedded here as
executable Lean definitions. The external engine calls (`mdb_*`) are not part
of the repository; they are abstracted as explicit inputs (the status code an
engine call returns, the out-parameters it fills), or, for the transaction
claims, as a small engine-state model taken from the spec's description of the
engine interface.
-/

namespace Lmdbxx

/-! ## Status codes (from `<lmdb.h>`, the fixed engine interface) -/

def MDB_SUCCESS : Int := 0

def MDB_KEYEXIST : Int := -30799

def MDB_NOTFOUND : Int := -30798

def MDB_CORRUPTED : Int := -30796

def MDB_PANIC : Int := -30795

/-! ## Error taxonomy

The wrapper's exception hierarchy (`lmdb::error` with subclasses
`logic_error`, `runtime_error`, `fatal_error`, and the four leaf classes).
An exception value carries its origin string, the raw status code, and the
concrete leaf kind that was thrown. -/

/-- The concrete error kinds thrown by `lmdb::error::raise`
(src/lmdb++.h:165-175): the four named leaf classes plus the generic
`lmdb::runtime_error` default. -/
inductive ErrorKind : Type
  | key_exist
  | not_found
  | corrupted
  | panic
  | runtime
  deriving DecidableEq, Repr

/-- A thrown `lmdb::error`: origin tag, raw status code, concrete kind. -/
structure Error : Type where
  origin : String
  code : Int
  kind : ErrorKind
  deriving DecidableEq, Repr

/-- `lmdb::error::raise(origin, rc)` (src/lmdb++.h:165-175): the switch that
selects the concrete exception class from the status code. The function is
`[[noreturn]]`; its result here is the exception object thrown. -/
def error.raise (origin : String) (rc : Int) : Error :=
  if rc = MDB_KEYEXIST then { origin := origin, code := rc, kind := .key_exist }
  else if rc = MDB_NOTFOUND then { origin := origin, code := rc, kind := .not_found }
  else if rc = MDB_CORRUPTED then { origin := origin, code := rc, kind := .corrupted }
  else if rc = MDB_PANIC then { origin := origin, code := rc, kind := .panic }
  else { origin := origin, code := rc, kind := .runtime }

/-- The spec's `classify_and_raise` operation: the uniform call-site idiom
`if (rc != MDB_SUCCESS) { error::raise(origin, rc); }` that every
engine-wrapping function follows (e.g. src/lmdb++.h:221-224, 332-335,
416-419). `none` means the call returned without raising; `some e` means the
exception `e` was thrown. -/
def classify_and_raise (origin : String) (rc : Int) : Option Error :=
  if rc ≠ MDB_SUCCESS then some (error.raise origin rc) else none

/-! ## Byte views

`MDB_val` is the engine's raw key/value descriptor: a byte count and a data
pointer. A pointer into caller memory is modelled by the byte list it
addresses; bytes are `Fin 256`. -/

/-- The engine's `MDB_val` descriptor: `mv_size` bytes starting at `mv_data`.
The pointer is modelled by the bytes it addresses. -/
structure MDB_val : Type where
  mv_size : Nat
  mv_data : List (Fin 256)
  deriving DecidableEq, Repr

/-! ## Procedural interface: `dbi_get` and `cursor_get`

Each wrapper makes one engine call and post-processes the status code. The
engine call is abstracted as a function argument: for `mdb_get` it maps the
lookup key to the returned status code plus the out-parameter `MDB_val` it
fills (its `mv_size`, and the engine memory addressable from its `mv_data`
pointer — a total byte function, since the caller can read past `mv_size`). -/

/-- What the external `mdb_get` call produces: the status code, the `mv_size`
it stores into the out `MDB_val`, and the engine memory addressable from the
`mv_data` pointer it stores there. -/
structure GetResult : Type where
  rc : Int
  val_size : Nat
  val_mem : Nat → Fin 256

/-- `lmdb::dbi_get` (src/lmdb++.h:462-472): calls `mdb_get` on the key,
raises unless the code is `MDB_SUCCESS` or `MDB_NOTFOUND`, and returns
`rc == MDB_SUCCESS` together with the filled out-parameter. -/
def dbi_get (mdb_get : MDB_val → GetResult) (key : MDB_val) :
    Except Error (Bool × Nat × (Nat → Fin 256)) :=
  let r := mdb_get key
  if r.rc ≠ MDB_SUCCESS ∧ r.rc ≠ MDB_NOTFOUND then
    .error (error.raise "mdb_get" r.rc)
  else
    .ok (decide (r.rc = MDB_SUCCESS), r.val_size, r.val_mem)

/-- Cursor positioning operations (`MDB_cursor_op`); `mdb_set` is the exact
positioning used by `cursor::find`. -/
inductive MDB_cursor_op : Type
  | mdb_first
  | mdb_last
  | mdb_next
  | mdb_prev
  | mdb_get_current
  | mdb_set
  | mdb_set_key
  | mdb_set_range
  deriving DecidableEq, Repr

/-- `lmdb::cursor_get` (src/lmdb++.h:544-554): calls `mdb_cursor_get` with
the key, the (possibly null) data descriptor and the operation, raises unless
the code is `MDB_SUCCESS` or `MDB_NOTFOUND`, and returns `rc == MDB_SUCCESS`.
The engine call is abstracted by the status code it returns; the in-place
update of `key`/`data` on success happens inside the engine and is not needed
by the wrapper's own logic. -/
def cursor_get (mdb_cursor_get : MDB_val → Option MDB_val → MDB_cursor_op → Int)
    (key : MDB_val) (data : Option MDB_val) (op : MDB_cursor_op) :
    Except Error Bool :=
  let rc := mdb_cursor_get key data op
  if rc ≠ MDB_SUCCESS ∧ rc ≠ MDB_NOTFOUND then
    .error (error.raise "mdb_cursor_get" rc)
  else
    .ok (decide (rc = MDB_SUCCESS))

/-! ## Claim theorems: error classification and absent-is-not-error -/

/-- C1: `classify_and_raise` maps `MDB_KEYEXIST` to the key-exists kind,
`MDB_NOTFOUND` to not-found, `MDB_CORRUPTED` to corrupted, `MDB_PANIC` to
panic; any other nonzero code to the generic runtime kind; status zero never
raises; and the mapping is deterministic (equal codes give equal outcomes). -/
theorem classify_and_raise_classification (origin : String) :
    classify_and_raise origin MDB_KEYEXIST =
      some { origin := origin, code := MDB_KEYEXIST, kind := .key_exist } ∧
    classify_and_raise origin MDB_NOTFOUND =
      some { origin := origin, code := MDB_NOTFOUND, kind := .not_found } ∧
    classify_and_raise origin MDB_CORRUPTED =
      some { origin := origin, code := MDB_CORRUPTED, kind := .corrupted } ∧
    classify_and_raise origin MDB_PANIC =
      some { origin := origin, code := MDB_PANIC, kind := .panic } ∧
    (∀ rc : Int, rc ≠ 0 → rc ≠ MDB_KEYEXIST → rc ≠ MDB_NOTFOUND →
      rc ≠ MDB_CORRUPTED → rc ≠ MDB_PANIC →
      classify_and_raise origin rc =
        some { origin := origin, code := rc, kind := .runtime }) ∧
    classify_and_raise origin 0 = none ∧
    (∀ rc₁ rc₂ : Int, rc₁ = rc₂ →
      classify_and_raise origin rc₁ = classify_and_raise origin rc₂) := by
  refine ⟨by norm_num [classify_and_raise, error.raise, MDB_SUCCESS, MDB_KEYEXIST],
    by norm_num [classify_and_raise, error.raise, MDB_SUCCESS, MDB_KEYEXIST, MDB_NOTFOUND],
    by norm_num [classify_and_raise, error.raise, MDB_SUCCESS, MDB_KEYEXIST, MDB_NOTFOUND,
      MDB_CORRUPTED],
    by norm_num [classify_and_raise, error.raise, MDB_SUCCESS, MDB_KEYEXIST, MDB_NOTFOUND,
      MDB_CORRUPTED, MDB_PANIC], ?_, ?_, ?_⟩
  · intro rc h0 h1 h2 h3 h4
    simp only [classify_and_raise, error.raise, MDB_SUCCESS, MDB_KEYEXIST, MDB_NOTFOUND,
      MDB_CORRUPTED, MDB_PANIC] at *
    rw [if_pos h0, if_neg h1, if_neg h2, if_neg h3, if_neg h4]
  · simp [classify_and_raise, MDB_SUCCESS]
  · intro rc₁ rc₂ h
    rw [h]

/-- Witness for C1: the generic-runtime branch and determinism, discharged at
the concrete code 7. -/
theorem classify_and_raise_classification_witness :
    classify_and_raise "mdb_put" 7 =
      some { origin := "mdb_put", code := 7, kind := .runtime } ∧
    classify_and_raise "mdb_put" 7 = classify_and_raise "mdb_put" 7 := by
  have h := classify_and_raise_classification "mdb_put"
  exact ⟨h.2.2.2.2.1 7 (by decide) (by decide) (by decide) (by decide) (by decide),
    h.2.2.2.2.2.2 7 7 rfl⟩

/-- C3: for `dbi_get` and `cursor_get`, when the engine reports
`MDB_NOTFOUND` the operation returns `false` without raising; it returns
`true` exactly when the engine reports `MDB_SUCCESS`; and for every other
nonzero status code it raises a typed error carrying that code and the
operation's origin. -/
theorem get_absent_is_not_error (mdb_get : MDB_val → GetResult)
    (mdb_cursor_get : MDB_val → Option MDB_val → MDB_cursor_op → Int)
    (key : MDB_val) (data : Option MDB_val) (op : MDB_cursor_op) :
    ((mdb_get key).rc = MDB_NOTFOUND →
      (dbi_get mdb_get key).map (fun r => r.1) = .ok false) ∧
    (mdb_cursor_get key data op = MDB_NOTFOUND →
      cursor_get mdb_cursor_get key data op = .ok false) ∧
    ((dbi_get mdb_get key).map (fun r => r.1) = .ok true ↔
      (mdb_get key).rc = MDB_SUCCESS) ∧
    (cursor_get mdb_cursor_get key data op = .ok true ↔
      mdb_cursor_get key data op = MDB_SUCCESS) ∧
    ((mdb_get key).rc ≠ MDB_SUCCESS → (mdb_get key).rc ≠ MDB_NOTFOUND →
      (dbi_get mdb_get key).map (fun r => r.1) =
        .error (error.raise "mdb_get" (mdb_get key).rc)) ∧
    (mdb_cursor_get key data op ≠ MDB_SUCCESS →
      mdb_cursor_get key data op ≠ MDB_NOTFOUND →
      cursor_get mdb_cursor_get key data op =
        .error (error.raise "mdb_cursor_get" (mdb_cursor_get key data op))) := by
  refine ⟨?_, ?_, ?_, ?_, ?_, ?_⟩
  · intro h
    simp [dbi_get, h, MDB_NOTFOUND, MDB_SUCCESS, Except.map]
  · intro h
    simp [cursor_get, h, MDB_NOTFOUND, MDB_SUCCESS]
  · constructor
    · intro h
      by_cases hs : (mdb_get key).rc = MDB_SUCCESS
      · exact hs
      · by_cases hn : (mdb_get key).rc = MDB_NOTFOUND
        · simp [dbi_get, hs, hn, Except.map, MDB_SUCCESS, MDB_NOTFOUND] at h
        · simp [dbi_get, hs, hn, Except.map] at h
    · intro h
      simp [dbi_get, h, MDB_SUCCESS, MDB_NOTFOUND, Except.map]
  · constructor
    · intro h
      by_cases hs : mdb_cursor_get key data op = MDB_SUCCESS
      · exact hs
      · by_cases hn : mdb_cursor_get key data op = MDB_NOTFOUND
        · simp [cursor_get, hs, hn, MDB_SUCCESS, MDB_NOTFOUND] at h
        · simp [cursor_get, hs, hn] at h
    · intro h
      simp [cursor_get, h, MDB_SUCCESS, MDB_NOTFOUND]
  · intro hs hn
    simp [dbi_get, hs, hn, Except.map]
  · intro hs hn
    simp [cursor_get, hs, hn]

/-- Witness for C3, at concrete engines: a lookup whose engine reports
`MDB_NOTFOUND` returns `false`, one reporting `MDB_SUCCESS` returns `true`,
and one reporting `-1` raises a generic runtime error. -/
theorem get_absent_is_not_error_witness :
    (dbi_get (fun _ => { rc := MDB_NOTFOUND, val_size := 0, val_mem := fun _ => 0 })
        { mv_size := 1, mv_data := [65] }).map (fun r => r.1) = .ok false ∧
    (cursor_get (fun _ _ _ => MDB_SUCCESS) { mv_size := 1, mv_data := [65] }
        none .mdb_first) = .ok true ∧
    (cursor_get (fun _ _ _ => -1) { mv_size := 1, mv_data := [65] }
        none .mdb_first) =
      .error { origin := "mdb_cursor_get", code := -1, kind := .runtime } := by
  have h := get_absent_is_not_error
    (fun _ => { rc := MDB_NOTFOUND, val_size := 0, val_mem := fun _ => 0 })
    (fun _ _ _ => MDB_SUCCESS) { mv_size := 1, mv_data := [65] } none .mdb_first
  have h2 := get_absent_is_not_error
    (fun _ => { rc := MDB_NOTFOUND, val_size := 0, val_mem := fun _ => 0 })
    (fun _ _ _ => -1) { mv_size := 1, mv_data := [65] } none .mdb_first
  refine ⟨h.1 rfl, h.2.2.2.1.mpr rfl, ?_⟩
  have h3 := h2.2.2.2.2.2 (by decide) (by decide)
  rw [h3]
  rfl

/-! ## Transactions

The wrapper class `lmdb::txn` (src/lmdb++.h:759-860) holds a raw `MDB_txn*`
(`_handle`), nulled out by `commit()`/`abort()`. The engine side is a small
state model: the durably published store, and the live engine transactions
with the effects each has pending since `begin`. Engine transaction handles
are ids (`Nat`); the wrapper's `MDB_txn*` is `Option Nat` (`none` = null). -/

/-- Key/value byte strings. -/
abbrev Bytes := List (Fin 256)

/-- Engine-side state for the transaction claims: the durably published
store, and the live transactions with their pending effects since `begin`. -/
structure Engine : Type where
  store : List (Bytes × Bytes)
  live : List (Nat × List (Bytes × Bytes))
  deriving DecidableEq, Repr

/-- The effects transaction `tid` has pending since `begin`. -/
def Engine.pendingOf (e : Engine) (tid : Nat) : List (Bytes × Bytes) :=
  match e.live.find? (fun p => p.1 == tid) with
  | some p => p.2
  | none => []

/-- Modelled from the spec: `mdb_txn_commit` is the external engine's commit
(not part of this repository; §4.4, §6). It durable-publishes the
transaction's pending effects on success, and the transaction is consumed
whether or not the commit succeeds (a failed commit is not resumable). The
status code the engine returns is supplied as the oracle `rc`. Engine
behaviour on a null handle is undefined and modelled as a no-op. -/
def mdb_txn_commit (e : Engine) (h : Option Nat) (rc : Int) : Int × Engine :=
  match h with
  | none => (rc, e)
  | some tid =>
      (rc,
       { store := if rc = MDB_SUCCESS then e.pendingOf tid ++ e.store else e.store,
         live := e.live.filter (fun p => p.1 != tid) })

/-- Modelled from the spec: `mdb_txn_abort` is the external engine's abort
(not part of this repository; §4.4, §6). It discards all effects pending
since `begin` — the published store is untouched — and consumes the
transaction. It returns no status code. Engine behaviour on a null handle is
undefined and modelled as a no-op. -/
def mdb_txn_abort (e : Engine) (h : Option Nat) : Engine :=
  match h with
  | none => e
  | some tid => { store := e.store, live := e.live.filter (fun p => p.1 != tid) }

/-- The wrapper class `lmdb::txn` (src/lmdb++.h:759-860): a raw `MDB_txn*`
field, `none` meaning null. -/
structure txn : Type where
  handle : Option Nat
  deriving DecidableEq, Repr

/-- `lmdb::txn::commit` (src/lmdb++.h:830-833): calls `lmdb::txn_commit`
on the raw handle — which raises when the engine reports nonzero
(src/lmdb++.h:350-356) — and then nulls the handle. When the exception
propagates, the assignment `_handle = nullptr` is skipped, so the wrapper is
returned unchanged; the engine state is already updated by the call. -/
def txn.commit (t : txn) (e : Engine) (rc : Int) : Except Error Unit × txn × Engine :=
  let r := mdb_txn_commit e t.handle rc
  if r.1 ≠ MDB_SUCCESS then
    (.error (error.raise "mdb_txn_commit" r.1), t, r.2)
  else
    (.ok (), { handle := none }, r.2)

/-- `lmdb::txn::abort` (src/lmdb++.h:840-843): calls the `noexcept`
`lmdb::txn_abort` (src/lmdb++.h:361-364) and nulls the handle. The exception-
free return type reflects that `abort()` never raises. -/
def txn.abort (t : txn) (e : Engine) : txn × Engine :=
  ({ handle := none }, mdb_txn_abort e t.handle)

/-- `lmdb::txn::~txn` (src/lmdb++.h:796-801): `if (_handle) { /* TODO */
_handle = nullptr; }` — the cleanup is an unimplemented placeholder, so the
destructor only clears the wrapper's own pointer and makes no engine call. -/
def txn.destructor (t : txn) (e : Engine) : txn × Engine :=
  match t.handle with
  | some _ => ({ handle := none }, e)
  | none => (t, e)

/-- C2: for a transaction with a live handle, `commit()` returns cleanly and
nulls the wrapper's handle when the engine reports success; raises the typed
error when the engine reports a nonzero code; and in either case the engine
transaction is no longer live afterwards (a failed commit is not
resumable). -/
theorem txn_commit_invalidates (t : txn) (tid : Nat) (e : Engine) (rc : Int)
    (ht : t.handle = some tid) :
    (rc = MDB_SUCCESS → (txn.commit t e rc).1 = .ok () ∧
      (txn.commit t e rc).2.1.handle = none) ∧
    (rc ≠ MDB_SUCCESS →
      (txn.commit t e rc).1 = .error (error.raise "mdb_txn_commit" rc)) ∧
    (∀ p ∈ (txn.commit t e rc).2.2.live, p.1 ≠ tid) := by
  refine ⟨?_, ?_, ?_⟩
  · intro h
    simp [txn.commit, mdb_txn_commit, ht, h]
  · intro h
    simp [txn.commit, mdb_txn_commit, ht, h]
  · intro p hp
    by_cases h : rc = MDB_SUCCESS
    · simp [txn.commit, mdb_txn_commit, ht, h] at hp
      exact hp.2
    · simp [txn.commit, mdb_txn_commit, ht, h] at hp
      exact hp.2

/-- Witness for C2: a failing commit (code -30792) on a live transaction
raises the typed error and leaves the engine transaction dead. -/
theorem txn_commit_invalidates_witness :
    (txn.commit { handle := some 1 } { store := [], live := [(1, [([2], [3])])] }
        (-30792)).1 = .error (error.raise "mdb_txn_commit" (-30792)) ∧
    ∀ p ∈ (txn.commit { handle := some 1 }
        { store := [], live := [(1, [([2], [3])])] } (-30792)).2.2.live,
      p.1 ≠ 1 := by
  have h := txn_commit_invalidates { handle := some 1 } 1
    { store := [], live := [(1, [([2], [3])])] } (-30792) rfl
  exact ⟨h.2.1 (by decide), h.2.2⟩

/-- C6: for a transaction with a live handle, `abort()` nulls the wrapper's
handle, leaves the published store untouched (all effects since `begin` are
discarded), and removes the engine transaction from the live set. It never
raises: its return type is total and exception-free, mirroring the `noexcept`
path through `lmdb::txn_abort`. -/
theorem txn_abort_invalidates (t : txn) (tid : Nat) (e : Engine)
    (ht : t.handle = some tid) :
    (txn.abort t e).1.handle = none ∧
    (txn.abort t e).2.store = e.store ∧
    (∀ p ∈ (txn.abort t e).2.live, p.1 ≠ tid) := by
  refine ⟨rfl, ?_, ?_⟩
  · simp [txn.abort, mdb_txn_abort, ht]
  · intro p hp
    simp [txn.abort, mdb_txn_abort, ht] at hp
    exact hp.2

/-- Witness for C6: aborting a live transaction with one pending effect
clears the handle, keeps the published store, and kills the engine
transaction. -/
theorem txn_abort_invalidates_witness :
    (txn.abort { handle := some 1 }
        { store := [([0], [1])], live := [(1, [([2], [3])])] }).1.handle = none ∧
    (txn.abort { handle := some 1 }
        { store := [([0], [1])], live := [(1, [([2], [3])])] }).2.store =
      [([0], [1])] ∧
    ∀ p ∈ (txn.abort { handle := some 1 }
        { store := [([0], [1])], live := [(1, [([2], [3])])] }).2.live,
      p.1 ≠ 1 :=
  txn_abort_invalidates { handle := some 1 } 1
    { store := [([0], [1])], live := [(1, [([2], [3])])] } rfl

/-- C5: destroying a `lmdb::txn` wrapper performs no engine call — the engine
state is returned exactly as given (nothing is committed, nothing is aborted,
a live engine transaction stays live and unresolved) — and only the wrapper's
own pointer is cleared. -/
theorem txn_destructor_no_engine_call (t : txn) (e : Engine) :
    (txn.destructor t e).2 = e ∧ (txn.destructor t e).1.handle = none := by
  cases h : t.handle with
  | none => exact ⟨by simp [txn.destructor, h], by simp [txn.destructor, h]⟩
  | some tid => exact ⟨by simp [txn.destructor, h], by simp [txn.destructor, h]⟩

/-! ## Environment and cursor close

`lmdb::env::close` (src/lmdb++.h:686-691) and `lmdb::cursor::close`
(src/lmdb++.h:1071-1076) share the guard-release-null pattern:
`if (handle()) { release(handle()); _handle = nullptr; }`, where the release
is a `noexcept` engine call. The engine side only needs to record which
handles were released, in order, to count releases. -/

/-- Engine-side record for environment claims: the `MDB_env*` handles
released by `mdb_env_close`, most recent first. -/
structure EnvSys : Type where
  released : List Nat
  deriving DecidableEq, Repr

/-- `lmdb::env_close` (src/lmdb++.h:256-259): the `noexcept` wrapper over
the engine's `mdb_env_close`, which releases the memory map; modelled as
recording the released handle. -/
def env_close (s : EnvSys) (h : Nat) : EnvSys :=
  { released := h :: s.released }

/-- The wrapper class `lmdb::env` (src/lmdb++.h:609-745): a raw `MDB_env*`
field, `none` meaning null. -/
structure env : Type where
  handle : Option Nat
  deriving DecidableEq, Repr

/-- `lmdb::env::close` (src/lmdb++.h:686-691): `if (handle()) {
lmdb::env_close(handle()); _handle = nullptr; }` — `noexcept`, hence the
exception-free return type. -/
def env.close (v : env) (s : EnvSys) : env × EnvSys :=
  match v.handle with
  | some h => ({ handle := none }, env_close s h)
  | none => (v, s)

/-- Engine-side record for cursor claims: the `MDB_cursor*` handles released
by `mdb_cursor_close`, most recent first. -/
structure CursorSys : Type where
  released : List Nat
  deriving DecidableEq, Repr

/-- `lmdb::cursor_close` (src/lmdb++.h:506-509): the `noexcept` wrapper over
the engine's `mdb_cursor_close`; modelled as recording the released
handle. -/
def cursor_close (s : CursorSys) (h : Nat) : CursorSys :=
  { released := h :: s.released }

/-- The wrapper class `lmdb::cursor` (src/lmdb++.h:1011-1141): a raw
`MDB_cursor*` field, `none` meaning null. -/
structure cursor : Type where
  handle : Option Nat
  deriving DecidableEq, Repr

/-- `lmdb::cursor::close` (src/lmdb++.h:1071-1076): `if (handle()) {
lmdb::cursor_close(handle()); _handle = nullptr; }` — `noexcept`, hence the
exception-free return type. -/
def cursor.close (c : cursor) (s : CursorSys) : cursor × CursorSys :=
  match c.handle with
  | some h => ({ handle := none }, cursor_close s h)
  | none => (c, s)

/-- C4: `close()` on an Environment or Cursor is idempotent: after the first
close the wrapper's handle is null; closing again reproduces exactly the same
wrapper and engine state (so the engine release runs at most once — the first
close adds at most one release, the second adds none); and no error can be
raised, the return types being total and exception-free (`noexcept`). -/
theorem close_idempotent (v : env) (s : EnvSys) (c : cursor) (u : CursorSys) :
    (env.close v s).1.handle = none ∧
    env.close (env.close v s).1 (env.close v s).2 = env.close v s ∧
    (env.close v s).2.released.length ≤ s.released.length + 1 ∧
    (cursor.close c u).1.handle = none ∧
    cursor.close (cursor.close c u).1 (cursor.close c u).2 = cursor.close c u ∧
    (cursor.close c u).2.released.length ≤ u.released.length + 1 := by
  refine ⟨?_, ?_, ?_, ?_, ?_, ?_⟩
  · cases h : v.handle <;> simp [env.close, h]
  · cases h : v.handle <;> simp [env.close, h]
  · cases h : v.handle <;> simp [env.close, env_close, h]
  · cases h : c.handle <;> simp [cursor.close, h]
  · cases h : c.handle <;> simp [cursor.close, h]
  · cases h : c.handle <;> simp [cursor.close, cursor_close, h]

/-! ## Database statistics -/

/-- The engine's `MDB_stat` record; `ms_entries` is the entry count. -/
structure MDB_stat : Type where
  ms_psize : Nat
  ms_depth : Nat
  ms_branch_pages : Nat
  ms_leaf_pages : Nat
  ms_overflow_pages : Nat
  ms_entries : Nat
  deriving DecidableEq, Repr

/-- `lmdb::dbi_stat` (src/lmdb++.h:426-434): calls `mdb_stat` and raises
unless it reports success. The engine call is abstracted by the status code
`rc` it returns and the `MDB_stat` record `result` it fills. -/
def dbi_stat (rc : Int) (result : MDB_stat) : Except Error MDB_stat :=
  if rc ≠ MDB_SUCCESS then .error (error.raise "mdb_stat" rc) else .ok result

/-- `lmdb::dbi::stat` (src/lmdb++.h:935-939): returns the record filled by
`lmdb::dbi_stat`, propagating its exception. -/
def dbi.stat (rc : Int) (result : MDB_stat) : Except Error MDB_stat :=
  dbi_stat rc result

/-- `lmdb::dbi::size` (src/lmdb++.h:959-961): `return stat(txn).ms_entries;`
— the projection of `stat`, propagating its exception. -/
def dbi.size (rc : Int) (result : MDB_stat) : Except Error Nat :=
  (dbi.stat rc result).map MDB_stat.ms_entries

/-- C9: for every engine outcome, `dbi::size` returns exactly the
`ms_entries` field of the record `dbi::stat` returns, and raises exactly the
error `dbi::stat` raises. -/
theorem dbi_size_eq_stat_entries (rc : Int) (result : MDB_stat) :
    (∀ s, dbi.stat rc result = .ok s → dbi.size rc result = .ok s.ms_entries) ∧
    (∀ err, dbi.stat rc result = .error err ↔ dbi.size rc result = .error err) := by
  constructor
  · intro s hs
    simp [dbi.size, hs, Except.map]
  · intro err
    by_cases h : rc = MDB_SUCCESS <;>
      simp [dbi.size, dbi.stat, dbi_stat, h, Except.map]

/-- A sample engine statistics record used by the C9 witness. -/
def sample_stat : MDB_stat :=
  ⟨4096, 1, 0, 1, 0, 42⟩

/-- Witness for C9: with a successful engine stat of 42 entries, `size`
returns 42; with a panic status, `stat` and `size` raise the same error. -/
theorem dbi_size_eq_stat_entries_witness :
    dbi.size 0 sample_stat = .ok 42 ∧
    (dbi.stat (-30795) sample_stat =
        .error { origin := "mdb_stat", code := -30795, kind := .panic } ↔
      dbi.size (-30795) sample_stat =
        .error { origin := "mdb_stat", code := -30795, kind := .panic }) := by
  have h0 := dbi_size_eq_stat_entries 0 sample_stat
  have h1 := dbi_size_eq_stat_entries (-30795) sample_stat
  exact ⟨h0.1 sample_stat rfl, h1.2 _⟩

/-! ## Generic key/value accessors

`lmdb::dbi::get<K>` (src/lmdb++.h:969-976), `lmdb::dbi::get<K, V>`
(src/lmdb++.h:984-996) and `lmdb::cursor::find<K>` (src/lmdb++.h:1134-1140)
treat an arbitrary fixed-layout caller value as raw bytes:
`key.mv_size = sizeof(K); key.mv_data = &k;`. A C type `K` is embedded as its
object representation: `size` is `sizeof(K)` and `bytes k` is the
`sizeof(K)`-byte representation read at `&k`. Reading a value back,
`*reinterpret_cast<const V*>(p)` consumes exactly the `sizeof(V)` bytes at
`p`, which is what `ofBytes` together with `ofBytes_congr` expresses. -/

/-- The byte layout of a fixed-layout C key type `K`: `sizeof(K)` and the
object representation read at the value's address. -/
structure CLayout (K : Type) : Type where
  size : Nat
  bytes : K → Bytes
  bytes_len : ∀ k, (bytes k).length = size

/-- The byte layout of a fixed-layout C value type `V` read back from engine
memory: `*reinterpret_cast<const V*>(p)` yields `ofBytes` of the memory at
`p`, and depends only on the `sizeof(V)` bytes there. -/
structure CLayoutR (V : Type) : Type where
  size : Nat
  ofBytes : (Nat → Fin 256) → V
  ofBytes_congr : ∀ f g, (∀ i, i < size → f i = g i) → ofBytes f = ofBytes g

/-- The `MDB_val` lookup key the generic accessors build from a caller value:
`key.mv_size = sizeof(K); key.mv_data = &k;`. -/
def lookup_key {K : Type} (L : CLayout K) (k : K) : MDB_val :=
  { mv_size := L.size, mv_data := L.bytes k }

/-- `lmdb::dbi::get<K>` (src/lmdb++.h:969-976): builds the lookup key from
`sizeof(K)` and `&k`, calls `lmdb::dbi_get`, and returns its boolean (the
out-value is dropped). -/
def dbi.get {K : Type} (L : CLayout K) (mdb_get : MDB_val → GetResult) (k : K) :
    Except Error Bool :=
  let key : MDB_val := { mv_size := L.size, mv_data := L.bytes k }
  (dbi_get mdb_get key).map (fun r => r.1)

/-- `lmdb::dbi::get<K, V>` (src/lmdb++.h:984-996): builds the lookup key the
same way, calls `lmdb::dbi_get`, and — only when the key was found — reads a
`V` from the out-value's data pointer (`v = *reinterpret_cast<const V*>
(val.mv_data);`); otherwise `v` keeps its prior value. -/
def dbi.getv {K V : Type} (L : CLayout K) (R : CLayoutR V)
    (mdb_get : MDB_val → GetResult) (k : K) (v : V) : Except Error (Bool × V) :=
  let key : MDB_val := { mv_size := L.size, mv_data := L.bytes k }
  match dbi_get mdb_get key with
  | .error err => .error err
  | .ok r => .ok (r.1, if r.1 then R.ofBytes r.2.2 else v)

/-- `lmdb::cursor::find<K>` (src/lmdb++.h:1134-1140): builds the lookup key
from `sizeof(K)` and `&k`, a zero-initialized out-value, and delegates to
`cursor_get` with the exact-positioning operation `MDB_SET`. -/
def cursor.find {K : Type} (L : CLayout K)
    (mdb_cursor_get : MDB_val → Option MDB_val → MDB_cursor_op → Int) (k : K) :
    Except Error Bool :=
  let key : MDB_val := { mv_size := L.size, mv_data := L.bytes k }
  let val : MDB_val := { mv_size := 0, mv_data := [] }
  cursor_get mdb_cursor_get key (some val) .mdb_set

/-- C7: the lookup key passed to the engine by `dbi::get` and by
`cursor::find` is exactly `sizeof(K)` bytes — the supplied value's byte
representation — and both operations consult the engine only at that key, so
the key bytes used for a given logical key are identical on every call. -/
theorem generic_lookup_key_bytes {K : Type} (L : CLayout K) (k : K)
    (e₁ e₂ : MDB_val → GetResult)
    (f₁ f₂ : MDB_val → Option MDB_val → MDB_cursor_op → Int) :
    (lookup_key L k).mv_size = L.size ∧
    (lookup_key L k).mv_data = L.bytes k ∧
    (lookup_key L k).mv_data.length = L.size ∧
    (e₁ (lookup_key L k) = e₂ (lookup_key L k) →
      dbi.get L e₁ k = dbi.get L e₂ k) ∧
    (f₁ (lookup_key L k) (some { mv_size := 0, mv_data := [] }) .mdb_set =
        f₂ (lookup_key L k) (some { mv_size := 0, mv_data := [] }) .mdb_set →
      cursor.find L f₁ k = cursor.find L f₂ k) := by
  refine ⟨rfl, rfl, L.bytes_len k, ?_, ?_⟩
  · intro h
    simp only [lookup_key] at h
    simp only [dbi.get, dbi_get, h]
  · intro h
    simp only [lookup_key] at h
    simp only [cursor.find, cursor_get, h]

/-- A concrete one-byte key layout for witnesses: `sizeof(K) = 1`, the
representation being the byte itself. -/
def byte_layout : CLayout (Fin 256) :=
  ⟨1, fun b => [b], fun _ => rfl⟩

/-- A concrete one-byte value layout for witnesses: reading a value consumes
exactly the one byte at the pointer. -/
def byte_layout_r : CLayoutR (Fin 256) :=
  ⟨1, fun f => f 0, fun _ _ h => h 0 Nat.one_pos⟩

/-- Witness for C7: at the one-byte key 65, the lookup key is one byte with
data `[65]`, and engines agreeing at that key give equal lookup results. -/
theorem generic_lookup_key_bytes_witness :
    (lookup_key byte_layout 65).mv_size = 1 ∧
    (lookup_key byte_layout 65).mv_data = [65] ∧
    (dbi.get byte_layout
        (fun w => { rc := if w.mv_size = 1 then 0 else -1, val_size := 0, val_mem := fun _ => 0 }) 65 =
      dbi.get byte_layout (fun _ => { rc := 0, val_size := 0, val_mem := fun _ => 0 }) 65) ∧
    (cursor.find byte_layout (fun w _ _ => if w.mv_size = 1 then MDB_NOTFOUND else 1) 65 =
      cursor.find byte_layout (fun _ _ _ => MDB_NOTFOUND) 65) := by
  have h := generic_lookup_key_bytes byte_layout 65
    (fun w => { rc := if w.mv_size = 1 then 0 else -1, val_size := 0, val_mem := fun _ => 0 })
    (fun _ => { rc := 0, val_size := 0, val_mem := fun _ => 0 })
    (fun w _ _ => if w.mv_size = 1 then MDB_NOTFOUND else 1)
    (fun _ _ _ => MDB_NOTFOUND)
  refine ⟨h.1, h.2.1, h.2.2.2.1 ?_, h.2.2.2.2 ?_⟩ <;> rfl

/-- C8: `dbi::get<K, V>` leaves `v` unchanged and returns `false` when the
engine reports not-found; when it reports success, `v` becomes the value read
from exactly the `sizeof(V)` bytes at the stored value's data pointer; and
the result never depends on the stored value's reported length `mv_size` —
engines agreeing on the status code and on the first `sizeof(V)` bytes give
identical results even when their reported lengths differ arbitrarily. -/
theorem getv_reads_sizeof_v_unchecked {K V : Type} (L : CLayout K) (R : CLayoutR V)
    (e e₁ e₂ : MDB_val → GetResult) (k : K) (v : V) :
    ((e (lookup_key L k)).rc = MDB_NOTFOUND →
      dbi.getv L R e k v = .ok (false, v)) ∧
    ((e (lookup_key L k)).rc = MDB_SUCCESS →
      dbi.getv L R e k v = .ok (true, R.ofBytes (e (lookup_key L k)).val_mem)) ∧
    ((e₁ (lookup_key L k)).rc = (e₂ (lookup_key L k)).rc →
      (∀ i, i < R.size →
        (e₁ (lookup_key L k)).val_mem i = (e₂ (lookup_key L k)).val_mem i) →
      dbi.getv L R e₁ k v = dbi.getv L R e₂ k v) := by
  refine ⟨?_, ?_, ?_⟩
  · intro h
    simp only [lookup_key] at h
    simp [dbi.getv, dbi_get, lookup_key, h, MDB_NOTFOUND, MDB_SUCCESS]
  · intro h
    simp only [lookup_key] at h
    simp [dbi.getv, dbi_get, lookup_key, h, MDB_NOTFOUND, MDB_SUCCESS]
  · intro hrc hmem
    have heq := R.ofBytes_congr _ _ hmem
    simp only [lookup_key] at hrc heq
    by_cases hc : ¬(e₁ { mv_size := L.size, mv_data := L.bytes k }).rc = 0 ∧
        ¬(e₁ { mv_size := L.size, mv_data := L.bytes k }).rc = -30798
    · simp [dbi.getv, dbi_get, ← hrc, hc, MDB_SUCCESS, MDB_NOTFOUND]
    · simp [dbi.getv, dbi_get, ← hrc, hc, heq, MDB_SUCCESS, MDB_NOTFOUND]

/-- Witness for C8: a found one-byte value 7 is read into `v` (even though
the engine reports a stored length of 5), an absent key leaves `v = 9`
unchanged, and two engines differing only in reported length agree. -/
theorem getv_reads_sizeof_v_unchecked_witness :
    dbi.getv byte_layout byte_layout_r
      (fun _ => { rc := 0, val_size := 5, val_mem := fun _ => 7 }) 65 9 =
      .ok (true, 7) ∧
    dbi.getv byte_layout byte_layout_r
      (fun _ => { rc := MDB_NOTFOUND, val_size := 0, val_mem := fun _ => 0 }) 65 9 =
      .ok (false, 9) ∧
    dbi.getv byte_layout byte_layout_r
      (fun _ => { rc := 0, val_size := 5, val_mem := fun _ => 7 }) 65 9 =
    dbi.getv byte_layout byte_layout_r
      (fun _ => { rc := 0, val_size := 1000, val_mem := fun i => if i = 0 then 7 else 3 }) 65 9 := by
  have h1 := getv_reads_sizeof_v_unchecked byte_layout byte_layout_r
    (fun _ => { rc := 0, val_size := 5, val_mem := fun _ => 7 })
    (fun _ => { rc := 0, val_size := 5, val_mem := fun _ => 7 })
    (fun _ => { rc := 0, val_size := 1000, val_mem := fun i => if i = 0 then 7 else 3 })
    (65 : Fin 256) (9 : Fin 256)
  have h2 := getv_reads_sizeof_v_unchecked byte_layout byte_layout_r
    (fun _ => { rc := MDB_NOTFOUND, val_size := 0, val_mem := fun _ => 0 })
    (fun _ => { rc := MDB_NOTFOUND, val_size := 0, val_mem := fun _ => 0 })
    (fun _ => { rc := MDB_NOTFOUND, val_size := 0, val_mem := fun _ => 0 })
    (65 : Fin 256) (9 : Fin 256)
  refine ⟨?_, h2.1 rfl, ?_⟩
  · rw [h1.2.1 rfl]
    rfl
  · refine h1.2.2 rfl ?_
    intro i hi
    have hz : i = 0 := Nat.lt_one_iff.mp (by simpa [byte_layout_r] using hi)
    subst hz
    rfl

/-! ## Byte View constructors

`lmdb::val` (src/lmdb++.h:1155-1202) wraps an `MDB_val`. The constructor
from a null-terminated byte string (src/lmdb++.h:1174-1175) delegates to the
(pointer, length) constructor (src/lmdb++.h:1180-1182) with
`std::strlen(data)`; the (pointer, length) constructor stores exactly that
size and that pointer (`_val{size, const_cast<char*>(data)}` — no copy). A
pointer is modelled by the byte list it addresses; `strlen` scans it to the
first zero byte. -/

/-- `std::strlen`: the number of bytes before the first zero byte. -/
def strlen (s : Bytes) : Nat :=
  (s.takeWhile (fun b => b != 0)).length

/-- The (pointer, length) constructor `lmdb::val::val(data, size)`
(src/lmdb++.h:1180-1182): stores exactly the given size and pointer. -/
def val.ofPtrLen (data : Bytes) (size : Nat) : MDB_val :=
  { mv_size := size, mv_data := data }

/-- The null-terminated-string constructor `lmdb::val::val(data)`
(src/lmdb++.h:1174-1175): delegates to the (pointer, length) constructor
with `std::strlen(data)`. -/
def val.ofCString (data : Bytes) : MDB_val :=
  val.ofPtrLen data (strlen data)

/-- Scanning to the terminator: on `pre ++ 0 :: post` with `pre` free of
zero bytes, `strlen` counts exactly the bytes of `pre`. -/
theorem strlen_append_zero (pre post : Bytes) (h : ∀ b ∈ pre, b ≠ 0) :
    strlen (pre ++ 0 :: post) = pre.length := by
  induction pre with
  | nil => simp [strlen]
  | cons a as ih =>
      have ha : (a != 0) = true := by
        simpa using h a (List.mem_cons_self a as)
      have hs : ∀ b ∈ as, b ≠ 0 := fun b hb => h b (List.mem_cons_of_mem a hb)
      simp only [List.cons_append, strlen, List.takeWhile_cons, ha, if_true,
        List.length_cons]
      exact congrArg Nat.succ (ih hs)

/-- C10: constructing a `val` from a null-terminated byte string yields a
view whose length is the number of bytes before the terminator (found by
scanning) and whose data pointer is the string itself, uncopied; the
(pointer, length) constructor stores exactly the given pointer and length. -/
theorem val_constructors (pre post d : Bytes) (n : Nat)
    (hpre : ∀ b ∈ pre, b ≠ 0) :
    (val.ofCString (pre ++ 0 :: post)).mv_size = pre.length ∧
    (val.ofCString (pre ++ 0 :: post)).mv_data = pre ++ 0 :: post ∧
    (val.ofPtrLen d n).mv_size = n ∧
    (val.ofPtrLen d n).mv_data = d := by
  refine ⟨?_, rfl, rfl, rfl⟩
  simpa [val.ofCString, val.ofPtrLen] using strlen_append_zero pre post hpre

/-- Witness for C10: from the bytes "hi\0!" the view has length 2 and points
at the original bytes; the explicit constructor stores (pointer, 5). -/
theorem val_constructors_witness :
    (val.ofCString [104, 105, 0, 33]).mv_size = 2 ∧
    (val.ofCString [104, 105, 0, 33]).mv_data = [104, 105, 0, 33] ∧
    (val.ofPtrLen [1, 2] 5).mv_size = 5 ∧
    (val.ofPtrLen [1, 2] 5).mv_data = [1, 2] := by
  have h := val_constructors [104, 105] [33] [1, 2] 5 (by
    intro b hb
    rcases List.mem_cons.mp hb with h1 | h2
    · subst h1
      decide
    · rcases List.mem_cons.mp h2 with h1 | h3
      · subst h1
        decide
      · exact absurd h3 (List.not_mem_nil b))
  exact ⟨h.1, h.2.1, h.2.2.1, h.2.2.2⟩

end Lmdbxx
